import Mathlib

/-!
Verification of the SAHM emergency-dispatch decision core.

This file gives a shallow embedding, over exact rationals, of the pure
decision logic of the repository:

* `dispatch` (src/dispatch_engine.py): priority-ordered threshold rules;
* the triage scorer (src/triage_engine.py): red flags, symptom points,
  score-to-severity mapping, category priority;
* the categorizer (src/categorizer_engine.py): tokenization, Jaccard-style
  scoring, exact-match stage and the below-threshold rejection;
* the medic matcher (src/medic_matcher.py): weighted composite scoring and
  best-candidate selection, with explicit state passing for the roster;
* the landing-zone selector (src/landing_zone.py): first-minimum
  nearest-neighbor scan with coordinate validation.

Python floats are idealized as rationals; `round(x, n)` is modelled by
`roundTo` (round-half-to-even, as Python rounds).  The square root used by
the planar distance approximation and the trigonometric functions used by
the haversine distance and bearing are not rational, so those functions are
taken as parameters; every theorem about them holds for an arbitrary such
parameter, and witnesses instantiate them with concrete functions.
-/

/-- Python `round` rounds half to even.  This is its idealization on `ℚ`,
returning the nearest integer, ties going to the even one. -/
def pyRoundInt (q : ℚ) : ℤ :=
  let f := ⌊q⌋
  if q - f < 1/2 then f
  else if q - f > 1/2 then f + 1
  else if 2 ∣ f then f else f + 1

/-- Python `round(x, n)`: round to `n` decimal digits, half to even. -/
def roundTo (n : ℕ) (q : ℚ) : ℚ :=
  (pyRoundInt (q * 10 ^ n) : ℚ) / 10 ^ n

/-- Python `str.strip()`: drop leading and trailing whitespace.  Written
over the character list so that it evaluates inside the kernel. -/
def pyStrip (s : String) : String :=
  String.mk (((s.toList.dropWhile Char.isWhitespace).reverse.dropWhile
    Char.isWhitespace).reverse)

/-- Python `str.lower()` (ASCII idealization). -/
def pyLower (s : String) : String :=
  String.mk (s.toList.map Char.toLower)

/-- Python `str.split()` with no separator: maximal runs of non-whitespace
characters, in order; `acc` holds the current word reversed. -/
def pyWords (acc : List Char) : List Char → List String
  | [] => if acc = [] then [] else [String.mk acc.reverse]
  | c :: cs =>
      if c.isWhitespace then
        if acc = [] then pyWords [] cs
        else String.mk acc.reverse :: pyWords [] cs
      else pyWords (c :: acc) cs

/-! ## Dispatch engine (src/dispatch_engine.py)

Response modes and rules are `Literal[...]` strings in the source, so they
are embedded as `String`. -/

def WEATHER_RISK_THRESHOLD : ℚ := 35.0

def EFFICIENCY_TIME_DELTA : ℚ := 10.0

/-- Result of the dispatch decision (`DispatchResult` dataclass).  The
human-readable `reasons` strings are built with float formatting and are
omitted from the embedding. -/
structure DispatchResult where
  response_mode : String
  rule_triggered : String
  weather_risk_pct : ℚ
  harm_threshold_min : ℚ
  ground_eta_min : ℚ
  air_eta_min : ℚ
  time_delta_min : ℚ
  exceeds_weather : Bool
  exceeds_harm : Bool
  exceeds_efficiency : Bool
  confidence : ℚ
  deriving DecidableEq

/-- Embedding of `dispatch(weather_risk_pct, harm_threshold_min,
ground_eta_min, air_eta_min)`. -/
def dispatch (weather_risk_pct harm_threshold_min ground_eta_min air_eta_min : ℚ) :
    DispatchResult :=
  let time_delta := ground_eta_min - air_eta_min
  let exceeds_weather := weather_risk_pct > WEATHER_RISK_THRESHOLD
  let exceeds_harm := ground_eta_min > harm_threshold_min
  let exceeds_efficiency := time_delta > EFFICIENCY_TIME_DELTA
  let mr : String × String × ℚ :=
    if exceeds_weather then ("AMBULANCE", "SAFETY_FILTER", 1.0)
    else if exceeds_harm then ("BOTH", "EMERGENCY_OVERRIDE", 0.98)
    else if exceeds_efficiency then ("BOTH", "EFFICIENCY_OPTIMIZATION", 0.90)
    else ("AMBULANCE", "DEFAULT", 0.9)
  { response_mode := mr.1
    rule_triggered := mr.2.1
    weather_risk_pct := weather_risk_pct
    harm_threshold_min := harm_threshold_min
    ground_eta_min := ground_eta_min
    air_eta_min := air_eta_min
    time_delta_min := time_delta
    exceeds_weather := decide exceeds_weather
    exceeds_harm := decide exceeds_harm
    exceeds_efficiency := decide exceeds_efficiency
    confidence := mr.2.2 }

/-! ## Triage engine (src/triage_engine.py) -/

def RED_FLAGS : Finset String :=
  { "trouble_breathing", "choking", "turning_blue", "chest_pain_crushing",
    "unconscious", "not_responding", "seizure_now", "face_droop",
    "slurred_speech", "arm_weakness", "severe_bleeding", "heavy_bleeding",
    "anaphylaxis_signs", "severe_allergy_swelling" }

/-- The `SYMPTOM_POINTS` dictionary; `dict.get(symptom, 0)` defaults to 0. -/
def SYMPTOM_POINTS (s : String) : ℕ :=
  match s with
  | "unconscious" => 5
  | "not_responding" => 5
  | "fainting" => 5
  | "severe_bleeding" => 5
  | "heavy_bleeding" => 5
  | "face_droop" => 5
  | "slurred_speech" => 5
  | "arm_weakness" => 5
  | "stroke_signs" => 5
  | "severe_allergy_swelling" => 5
  | "anaphylaxis_signs" => 5
  | "trouble_breathing" => 4
  | "shortness_of_breath" => 4
  | "chest_pain" => 4
  | "chest_pain_crushing" => 4
  | "choking" => 4
  | "turning_blue" => 4
  | "moderate_bleeding" => 3
  | "seizure_now" => 3
  | "major_trauma" => 3
  | "head_injury" => 3
  | "confusion" => 3
  | "high_fever" => 2
  | "fever" => 2
  | "vomiting_severe" => 2
  | "diarrhea_severe" => 2
  | "dehydration" => 2
  | "palpitations" => 2
  | "wheezing" => 2
  | "mild_pain" => 1
  | "headache" => 1
  | "rash" => 1
  | "chills" => 1
  | "nausea" => 1
  | "vomiting" => 1
  | "diarrhea" => 1
  | "panic" => 1
  | "severe_distress" => 1
  | "swelling_face_lips" => 1
  | _ => 0

/-- The `CATEGORY_RULES` dict in insertion order. -/
def CATEGORY_RULES : List (String × Finset String) :=
  [ ("trauma_bleeding",
      { "severe_bleeding", "heavy_bleeding", "moderate_bleeding",
        "major_trauma", "head_injury" }),
    ("cardiac", { "chest_pain", "chest_pain_crushing", "palpitations" }),
    ("respiratory",
      { "shortness_of_breath", "wheezing", "choking", "trouble_breathing",
        "turning_blue" }),
    ("neuro",
      { "seizure_now", "fainting", "face_droop", "slurred_speech",
        "arm_weakness", "stroke_signs", "confusion", "unconscious",
        "not_responding" }),
    ("allergic",
      { "rash", "swelling_face_lips", "anaphylaxis_signs",
        "severe_allergy_swelling" }),
    ("infection_fever", { "fever", "high_fever", "chills" }),
    ("gi_dehydration",
      { "vomiting", "vomiting_severe", "diarrhea", "diarrhea_severe",
        "dehydration", "nausea" }),
    ("mental_health", { "panic", "severe_distress" }) ]

def PRIORITY : List String :=
  [ "trauma_bleeding", "cardiac", "respiratory", "neuro", "allergic",
    "infection_fever", "gi_dehydration", "mental_health" ]

def FOLLOWUP_QUESTIONS : List String :=
  [ "What is the main symptom?",
    "How long has it been happening?",
    "Is the person conscious and breathing normally?",
    "Is there any bleeding or visible injury?",
    "Can the person speak in full sentences?" ]

/-- Embedding of `pick_category`.  `hits` collects, in dict order, the
categories whose symptom set meets the input; every rule name occurs in
`PRIORITY`, and `hits[0]` is the fallback the source uses otherwise. -/
def pick_category (symptoms : Finset String) : String :=
  let hits := (CATEGORY_RULES.filter fun p => (symptoms ∩ p.2).Nonempty).map Prod.fst
  match hits with
  | [] => "other_unclear"
  | h :: _ => (PRIORITY.find? fun c => hits.contains c).getD h

/-- Embedding of `calculate_symptom_score`: sum of point values over the
(distinct) symptoms. -/
def calculate_symptom_score (symptoms : Finset String) : ℕ :=
  symptoms.sum SYMPTOM_POINTS

/-- Embedding of `map_score_to_severity`. -/
def map_score_to_severity (score : ℕ) : ℕ :=
  if score = 0 then 0
  else if score ≤ 2 then 1
  else if score ≤ 4 then 2
  else 3

/-- The test `voice_stress_score is not None and voice_stress_score >= 0.80`. -/
def voice_stress_high (voice_stress_score : Option ℚ) : Bool :=
  match voice_stress_score with
  | none => false
  | some q => decide ((0.80 : ℚ) ≤ q)

/-- Embedding of `compute_severity`. -/
def compute_severity (symptoms : Finset String) (voice_stress_score : Option ℚ) :
    ℕ × Bool :=
  if (symptoms ∩ RED_FLAGS).Nonempty then (3, true)
  else
    let score := calculate_symptom_score symptoms
    let score := if 0 < score ∧ voice_stress_high voice_stress_score then score + 1 else score
    let severity := map_score_to_severity score
    (severity, decide (severity = 3))

/-- The dict returned by `triage`, with the `score_breakdown` fields inlined. -/
structure TriageOutput where
  category : String
  severity_level : ℕ
  escalate_human : Bool
  confidence : ℚ
  followup_questions : List String
  symptom_score : ℕ
  voice_bonus : ℕ
  total_score : ℕ
  red_flag_detected : Bool
  duration_minutes : Option ℤ
  deriving DecidableEq

/-- Embedding of `triage(symptoms, free_text, duration_minutes,
voice_stress_score)`. -/
def triage (symptoms : List String) (free_text : String)
    (duration_minutes : Option ℤ) (voice_stress_score : Option ℚ) : TriageOutput :=
  let sym := symptoms.toFinset
  if sym = ∅ ∧ pyStrip free_text = "" then
    { category := "other_unclear"
      severity_level := 0
      escalate_human := false
      confidence := 0.0
      followup_questions := FOLLOWUP_QUESTIONS
      symptom_score := 0
      voice_bonus := 0
      total_score := 0
      red_flag_detected := false
      duration_minutes := duration_minutes }
  else
    let category := pick_category sym
    let sevesc := compute_severity sym voice_stress_score
    let severity := sevesc.1
    let escalate := sevesc.2
    let base_score := calculate_symptom_score sym
    let voice_bonus : ℕ :=
      if 0 < base_score ∧ voice_stress_high voice_stress_score then 1 else 0
    let total_score := base_score + voice_bonus
    let red_flag := (sym ∩ RED_FLAGS).Nonempty
    let confidence : ℚ :=
      if severity = 0 then 0.0
      else if red_flag ∨ severity = 3 then 0.90
      else if severity = 2 then 0.75
      else 0.65
    { category := category
      severity_level := severity
      escalate_human := escalate
      confidence := confidence
      followup_questions := if 0 < severity then [] else FOLLOWUP_QUESTIONS
      symptom_score := base_score
      voice_bonus := voice_bonus
      total_score := total_score
      red_flag_detected := decide red_flag
      duration_minutes := duration_minutes }

/-! ## Categorizer engine (src/categorizer_engine.py, src/data_loader.py)

`\w` in the source regexes is idealized as ASCII alphanumerics plus
underscore. -/

def MEDICAL_STOPWORDS : Finset String :=
  { "the", "a", "an", "and", "or", "of", "in", "on", "at", "to", "for",
    "with", "after", "before", "is", "are", "was", "were", "been", "being",
    "have", "has", "had", "do", "does", "did", "will", "would", "should",
    "could", "may", "might", "must", "can", "be", "am", "patient", "person" }

def CRITICAL_KEYWORDS : Finset String :=
  { "cardiac", "arrest", "anaphylaxis", "stroke", "seizure", "unconscious",
    "bleeding", "choking", "trauma", "collapse", "respiratory", "asthma",
    "copd", "heart", "chest", "pain", "breathing", "airway", "hypoglycemic" }

/-- A regex `\w` word character (ASCII idealization). -/
def isWordChar (c : Char) : Bool :=
  c.isAlphanum || c = '_'

/-- Embedding of `_tokenize`: lowercase, replace every non-word,
non-whitespace character by a space, split on whitespace, drop stopwords. -/
def _tokenize (text : String) : Finset String :=
  if text = "" then ∅
  else
    let clean := (pyLower text).toList.map fun c =>
      if isWordChar c || c.isWhitespace then c else ' '
    (pyWords [] clean).toFinset \ MEDICAL_STOPWORDS

/-- Embedding of `_jaccard_similarity`. -/
def _jaccard_similarity (set1 set2 : Finset String) : ℚ :=
  if set1 = ∅ ∨ set2 = ∅ then 0.0
  else ((set1 ∩ set2).card : ℚ) / ((set1 ∪ set2).card : ℚ)

/-- Embedding of `_token_overlap_score`: 60% query coverage plus 40% Jaccard. -/
def _token_overlap_score (query_tokens case_tokens : Finset String) : ℚ :=
  if query_tokens = ∅ ∨ case_tokens = ∅ then 0.0
  else
    let query_coverage := ((query_tokens ∩ case_tokens).card : ℚ) / (query_tokens.card : ℚ)
    0.6 * query_coverage + 0.4 * _jaccard_similarity query_tokens case_tokens

/-- Embedding of `_keyword_bonus`: 0.1 per shared critical keyword, capped at 0.2. -/
def _keyword_bonus (query_tokens case_tokens : Finset String) : ℚ :=
  let matching_critical := (query_tokens ∩ CRITICAL_KEYWORDS) ∩ (case_tokens ∩ CRITICAL_KEYWORDS)
  if matching_critical = ∅ then 0.0
  else min 0.2 ((matching_critical.card : ℚ) * 0.1)

/-- Collapse whitespace runs to a single space (`re.sub(r'\s+', ' ', ...)`).
The flag records whether the previous character was whitespace. -/
def squeezeWS (prevWS : Bool) : List Char → List Char
  | [] => []
  | c :: cs =>
      if c.isWhitespace then (if prevWS then [] else [' ']) ++ squeezeWS true cs
      else c :: squeezeWS false cs

/-- Embedding of `data_loader.normalize_case_name`: lowercase, trim, drop
characters other than word characters, whitespace and hyphens, collapse
whitespace, trim again. -/
def normalize_case_name (name : String) : String :=
  if name = "" then ""
  else
    let clean := pyStrip (pyLower name)
    let kept := clean.toList.filter fun c => isWordChar c || c.isWhitespace || c = '-'
    pyStrip (String.mk (squeezeWS false kept))

/-- Python substring test `sub in hay`. -/
def isSubstrOf (sub hay : String) : Bool :=
  (List.range (hay.toList.length + 1)).any fun i => sub.toList.isPrefixOf (hay.toList.drop i)

/-- One catalog entry, in the canonical shape produced by the loader. -/
structure CatalogCase where
  case_name : String
  case_name_normalized : String
  description : String
  category : String
  severity : String
  severity_level : ℤ
  harm_threshold_min : ℤ
  harm_threshold_max : ℤ
  harm_threshold_raw : String
  intervention : String
  equipment : String
  ctas : ℤ
  deriving DecidableEq

/-- The categorizer's result dataclass (named `TriageResult` in the source). -/
structure CategorizerResult where
  case_name : String
  case_name_matched : String
  category : String
  severity : String
  severity_level : ℤ
  harm_threshold_min : ℤ
  harm_threshold_max : ℤ
  harm_threshold_raw : String
  confidence : ℚ
  match_method : String
  matched_keywords : List String
  intervention : String
  equipment : String
  ctas : ℤ
  alternatives : List (String × ℚ)
  deriving DecidableEq

/-- Embedding of `_create_result`. -/
def _create_result (case_description : String) (case : CatalogCase)
    (confidence : ℚ) (match_method : String) (matched_keywords : List String)
    (alternatives : List (String × ℚ)) : CategorizerResult :=
  { case_name := case_description
    case_name_matched := case.case_name
    category := case.category
    severity := case.severity
    severity_level := case.severity_level
    harm_threshold_min := case.harm_threshold_min
    harm_threshold_max := case.harm_threshold_max
    harm_threshold_raw := case.harm_threshold_raw
    confidence := roundTo 2 confidence
    match_method := match_method
    matched_keywords := matched_keywords
    intervention := case.intervention
    equipment := case.equipment
    ctas := case.ctas
    alternatives := alternatives }

/-- The combined query text built at the top of `categorize`: the trimmed
description, followed by the space-joined symptoms when any are given. -/
def categorize_query (case_description : String) (symptoms : List String) : String :=
  if symptoms = [] then pyStrip case_description
  else pyStrip case_description ++ " " ++ String.intercalate " " symptoms

/-- The stage-2 score `categorize` assigns to one catalog entry: token
overlap, substring bonuses, category-token bonus, critical-keyword bonus,
clamped to at most 1. -/
def stage2_score (query_normalized : String) (query_tokens : Finset String)
    (case : CatalogCase) : ℚ :=
  let case_tokens := _tokenize (case.case_name ++ " " ++ case.description)
  let score := _token_overlap_score query_tokens case_tokens
  let score := score +
    (if isSubstrOf query_normalized case.case_name_normalized then 0.3
     else if isSubstrOf case.case_name_normalized query_normalized then 0.25 else 0)
  let score := score +
    (if (query_tokens ∩ _tokenize case.category).Nonempty then 0.1 else 0)
  let score := score + _keyword_bonus query_tokens case_tokens
  min 1.0 score

/-- Embedding of `categorize(case_description, symptoms, categorizer_data)`.
Stage 1 returns on the first exact normalized-name match; stage 2 sorts the
scored entries descending (Python's stable sort) and rejects a best score
below 0.1.  `list(query_tokens & case_tokens)` enumerates a Python set in
unspecified order; it is embedded as the sorted list of that set. -/
def categorize (case_description : String) (symptoms : List String)
    (categorizer_data : List CatalogCase) : Option CategorizerResult :=
  if categorizer_data = [] then none
  else
    let query_text := categorize_query case_description symptoms
    if query_text = "" then none
    else
      let query_normalized := normalize_case_name query_text
      let query_tokens := _tokenize query_text
      match categorizer_data.find? fun c => c.case_name_normalized == query_normalized with
      | some case =>
          some (_create_result case_description case 1.0 "exact" [query_normalized] [])
      | none =>
          let scored_matches := categorizer_data.map fun c =>
            (c, stage2_score query_normalized query_tokens c,
             (query_tokens ∩ _tokenize (c.case_name ++ " " ++ c.description)).sort (· ≤ ·))
          let sorted := scored_matches.mergeSort fun x y => decide (y.2.1 ≤ x.2.1)
          match sorted with
          | [] => none
          | best :: rest =>
              if best.2.1 < 0.1 then none
              else
                let alternatives := ((rest.take 3).filter fun m => 0.1 < m.2.1).map
                  fun m => (m.1.case_name, roundTo 2 m.2.1)
                let confidence := min 0.95 best.2.1
                let match_method :=
                  if 0.7 ≤ best.2.1 then "token_overlap"
                  else if 0.4 ≤ best.2.1 then "partial"
                  else "fallback"
                some (_create_result case_description best.1 confidence match_method
                  best.2.2 alternatives)

/-! ## Medic matcher (src/medic_matcher.py)

The float square root used by `_calculate_distance` is irrational in
general, so the matcher is parameterized by a function `sq` standing for
`x ** 0.5`; every statement below holds for an arbitrary `sq`.  Likewise,
the seeded pseudo-random derivation of a default patient location
(`random.Random(seed).uniform`) is a fixed pure function of the seed for
the lifetime of the process and is modelled by a parameter `locOf`. -/

/-- Certification levels of the `Medic` dataclass (the composite-score
table indexes exactly these three keys). -/
inductive CertLevel where
  | paramedic
  | emt_advanced
  | critical_care
  deriving DecidableEq

/-- The `Medic` dataclass. -/
structure Medic where
  id : String
  name : String
  specialty : String
  certification_level : CertLevel
  gps_location : ℚ × ℚ
  status : String
  current_load : ℤ
  missions_completed : ℕ
  rating : ℚ
  languages : List String
  deriving DecidableEq

/-- `MedicDatabase.SPECIALTY_MAP`, in dict order. -/
def SPECIALTY_MAP : List (String × List String) :=
  [ ("cardiac", ["cardiac", "chest_pain"]),
    ("trauma", ["trauma_bleeding", "major_injury"]),
    ("respiratory", ["respiratory", "breathing"]),
    ("neuro", ["neuro", "neurological", "stroke"]),
    ("pediatric", ["pediatric", "child"]),
    ("general",
      ["infection_fever", "gi_dehydration", "allergic", "other_unclear",
       "mental_health"]) ]

/-- Embedding of `_calculate_distance`: planar degree-delta approximation,
`sqrt(dlat^2 + dlon^2) * 111`, rounded to 2 decimals.  `sq` stands for the
square root. -/
def _calculate_distance (sq : ℚ → ℚ) (loc1 loc2 : ℚ × ℚ) : ℚ :=
  let lat_diff := |loc2.1 - loc1.1|
  let lon_diff := |loc2.2 - loc1.2|
  roundTo 2 (sq (lat_diff ^ 2 + lon_diff ^ 2) * 111)

/-- Embedding of `_estimate_eta`: 120 km/h aerial, 40 km/h ground, minutes
rounded to 1 decimal. -/
def _estimate_eta (distance_km : ℚ) (mode : String) : ℚ :=
  let speed_kmh : ℚ := if mode = "aerial" then 120 else 40
  roundTo 1 (distance_km / speed_kmh * 60)

/-- Embedding of `_calculate_specialty_match`: 1.0 on exact
specialty-to-category membership, 0.7 for a "general" medic, 0.4 otherwise. -/
def _calculate_specialty_match (medic_specialty case_category : String) : ℚ :=
  if case_category ∈ ((SPECIALTY_MAP.lookup medic_specialty).getD []) then 1.0
  else if medic_specialty = "general" then 0.7
  else 0.4

/-- The certification table `{"paramedic": 0.7, "emt_advanced": 0.85,
"critical_care": 1.0}`. -/
def cert_score_of (c : CertLevel) : ℚ :=
  match c with
  | .paramedic => 0.7
  | .emt_advanced => 0.85
  | .critical_care => 1.0

/-- The dict returned by `_calculate_match_score`; its `breakdown` entries
are rounded to 2 decimals, the composite to 3. -/
structure ScoreData where
  medic_id : String
  composite_score : ℚ
  distance_km : ℚ
  eta_minutes : ℚ
  specialty_match : ℚ
  bd_distance_score : ℚ
  bd_specialty_score : ℚ
  bd_workload_score : ℚ
  bd_rating_score : ℚ
  bd_cert_score : ℚ
  deriving DecidableEq

/-- Embedding of `_calculate_match_score` (the `severity` argument is
accepted and unused, as in the source). -/
def _calculate_match_score (sq : ℚ → ℚ) (medic : Medic) (case_category : String)
    (patient_location : ℚ × ℚ) (severity : ℤ) (mode : String) : ScoreData :=
  let _ := severity
  let distance := _calculate_distance sq medic.gps_location patient_location
  let eta := _estimate_eta distance mode
  let specialty_score := _calculate_specialty_match medic.specialty case_category
  let distance_score := max 0 (1 - distance / 20)
  let workload_score := 1 - (medic.current_load : ℚ) / 100
  let rating_score := medic.rating / 5.0
  let cert_score := cert_score_of medic.certification_level
  let composite_score :=
    distance_score * 0.40 + specialty_score * 0.30 + workload_score * 0.15 +
    rating_score * 0.10 + cert_score * 0.05
  { medic_id := medic.id
    composite_score := roundTo 3 composite_score
    distance_km := distance
    eta_minutes := eta
    specialty_match := specialty_score
    bd_distance_score := roundTo 2 distance_score
    bd_specialty_score := roundTo 2 specialty_score
    bd_workload_score := roundTo 2 workload_score
    bd_rating_score := roundTo 2 rating_score
    bd_cert_score := roundTo 2 cert_score }

/-- The `response_mode` key extracted from the decision engine's output. -/
structure DecisionOutput where
  response_mode : String
  deriving DecidableEq

/-- The `severity_level` and `category` keys extracted from the triage
output. -/
structure TriageSummary where
  severity_level : ℤ
  category : String
  deriving DecidableEq

/-- The assigned-medic dict inside a successful match result. -/
structure AssignedMedic where
  id : String
  name : String
  specialty : String
  certification : CertLevel
  rating : ℚ
  languages : List String
  distance_km : ℚ
  eta_minutes : ℚ
  missions_completed : ℕ
  status : String
  gps_location : ℚ × ℚ
  deriving DecidableEq

/-- The three shapes of dict `find_best_match` returns: the ground-only
short circuit (no `status` key), the no-available-medics error, and a
successful assignment.  Wall-clock `match_time_seconds` and the
display-only `alternatives`/`all_medics` listings are omitted. -/
inductive MatchOutcome where
  | groundOnly (reasoning : String)
  | noAvailable (reasoning : String) (status : String)
  | success (assigned_medic : AssignedMedic) (match_score : ℚ)
      (patient_location : ℚ × ℚ) (status : String)
  deriving DecidableEq

/-- First maximal element of `x :: l` under score `f`: the fold keeps the
earlier element on ties, exactly like Python's stable descending sort
followed by `scores[0]`. -/
def pickBest (f : α → ℚ) (x : α) (l : List α) : α :=
  l.foldl (fun b y => if f b < f y then y else b) x

/-- Embedding of `MedicMatcher.find_best_match`.  The roster `db` is the
matcher's state (`self.db.medics`); it is threaded through and returned so
that absence of mutation is part of the statement. -/
def find_best_match (sq : ℚ → ℚ) (locOf : ℤ → ℚ × ℚ) (db : List Medic)
    (decision_output : DecisionOutput) (triage_output : TriageSummary)
    (patient_location : Option (ℚ × ℚ)) (seed : Option ℤ) :
    MatchOutcome × List Medic :=
  let response_mode := decision_output.response_mode
  let severity := triage_output.severity_level
  let category := triage_output.category
  let ploc := patient_location.getD (locOf (seed.getD 1))
  if response_mode = "ground_only" then
    (.groundOnly "Ground ambulance only, no aerial medic needed", db)
  else
    let available := db.filter fun m => m.status = "available"
    match available with
    | [] => (.noAvailable "No medics currently available" "error", db)
    | m₀ :: rest =>
        let mode := if response_mode ∈ ["aerial_only", "combined"] then "aerial" else "ground"
        let score := fun m => (m, _calculate_match_score sq m category ploc severity mode)
        let best := pickBest (fun p => p.2.composite_score) (score m₀) (rest.map score)
        (.success
          { id := best.1.id
            name := best.1.name
            specialty := best.1.specialty
            certification := best.1.certification_level
            rating := best.1.rating
            languages := best.1.languages
            distance_km := best.2.distance_km
            eta_minutes := best.2.eta_minutes
            missions_completed := best.1.missions_completed
            status := "En Route"
            gps_location := best.1.gps_location }
          best.2.composite_score ploc "success", db)

/-- Embedding of the module-level `assign_medic` wrapper: it delegates to
the singleton matcher's `find_best_match` on the same roster state. -/
def assign_medic (sq : ℚ → ℚ) (locOf : ℤ → ℚ × ℚ) (db : List Medic)
    (decision_output : DecisionOutput) (triage_output : TriageSummary)
    (patient_location : Option (ℚ × ℚ)) (seed : Option ℤ) :
    MatchOutcome × List Medic :=
  find_best_match sq locOf db decision_output triage_output patient_location seed

/-! ## Landing zone selector (src/landing_zone.py)

The haversine distance and the compass bearing are built from
transcendental functions (`sin`, `cos`, `atan2`, `sqrt`), which have no
exact rational embedding; the selector is therefore parameterized by a
distance function `dist` and a bearing function `bear`, both taking the
patient latitude/longitude and the zone latitude/longitude.  Every theorem
below holds for arbitrary `dist` and `bear`. -/

/-- A landing zone record as consumed from the loaded JSON. -/
structure Zone where
  name : String
  latitude : ℚ
  longitude : ℚ
  area : String
  deriving DecidableEq

/-- The `LandingZoneResult` dataclass. -/
structure LandingZoneResult where
  name : String
  latitude : ℚ
  longitude : ℚ
  area : String
  distance_km : ℚ
  bearing : ℚ
  estimated_flight_time : ℚ
  deriving DecidableEq

/-- Embedding of `_validate_coordinates`: basic range check plus the
placeholder-zero guard. -/
def _validate_coordinates (lat lon : ℚ) : Bool :=
  if ¬(-90 ≤ lat ∧ lat ≤ 90) then false
  else if ¬(-180 ≤ lon ∧ lon ≤ 180) then false
  else if lat = 0 ∧ lon = 0 then false
  else true

/-- Embedding of `estimate_flight_time` at the default 120 km/h drone speed. -/
def estimate_flight_time (distance_km : ℚ) : ℚ :=
  if distance_km ≤ 0 then 0.0 else distance_km / 120.0 * 60

/-- The `LandingZoneResult` built for a chosen zone, given its unrounded
distance `d`. -/
def mkZoneResult (bear : ℚ → ℚ → ℚ → ℚ → ℚ) (patient_lat patient_lon : ℚ)
    (zone : Zone) (d : ℚ) : LandingZoneResult :=
  { name := zone.name
    latitude := zone.latitude
    longitude := zone.longitude
    area := zone.area
    distance_km := roundTo 2 d
    bearing := roundTo 1 (bear patient_lat patient_lon zone.latitude zone.longitude)
    estimated_flight_time := roundTo 1 (estimate_flight_time d) }

/-- The loop of `find_nearest_zone`: the accumulator carries the current
result together with the unrounded `min_distance`; a zone replaces it only
on a strictly smaller distance, so the first minimum encountered wins. -/
def nearestLoop (dist bear : ℚ → ℚ → ℚ → ℚ → ℚ) (patient_lat patient_lon : ℚ)
    (zones : List Zone) (acc : Option (LandingZoneResult × ℚ)) :
    Option (LandingZoneResult × ℚ) :=
  zones.foldl
    (fun acc zone =>
      if ¬ _validate_coordinates zone.latitude zone.longitude then acc
      else
        let d := dist patient_lat patient_lon zone.latitude zone.longitude
        match acc with
        | none => some (mkZoneResult bear patient_lat patient_lon zone d, d)
        | some (r, min_distance) =>
            if d < min_distance then
              some (mkZoneResult bear patient_lat patient_lon zone d, d)
            else some (r, min_distance))
    acc

/-- Embedding of `find_nearest_zone(zones, patient_lat, patient_lon)`. -/
def find_nearest_zone (dist bear : ℚ → ℚ → ℚ → ℚ → ℚ)
    (zones : List Zone) (patient_lat patient_lon : ℚ) :
    Option LandingZoneResult :=
  (nearestLoop dist bear patient_lat patient_lon zones none).map Prod.fst

/-- Modelled from the spec: the claim's selection rule, written directly as
a recursion — among the zones that pass coordinate validation, pick the one
at minimal distance, the first minimum encountered in input order winning
ties (`≤` keeps the earlier zone).  Used as the reference against which the
source's fold is proved equal. -/
def nearestSpec (dist : ℚ → ℚ → ℚ → ℚ → ℚ) (patient_lat patient_lon : ℚ) :
    List Zone → Option Zone
  | [] => none
  | z :: zs =>
      if _validate_coordinates z.latitude z.longitude then
        match nearestSpec dist patient_lat patient_lon zs with
        | none => some z
        | some w =>
            if dist patient_lat patient_lon z.latitude z.longitude ≤
                dist patient_lat patient_lon w.latitude w.longitude then some z
            else some w
      else nearestSpec dist patient_lat patient_lon zs

/-! ## Claim C1: dispatch rule order, outcomes, and strict thresholds -/

/-- C1: `dispatch` follows the first matching rule under strict comparisons:
weather risk above 35.0 gives AMBULANCE/SAFETY_FILTER with confidence 1.0;
otherwise ground ETA above the harm threshold gives BOTH/EMERGENCY_OVERRIDE
with confidence 0.98; otherwise a time delta above 10.0 gives
BOTH/EFFICIENCY_OPTIMIZATION with confidence 0.90; otherwise
AMBULANCE/DEFAULT with confidence 0.9.  Inputs exactly at a threshold
(weather 35.0, delta 10.0) satisfy the `≤` side and fall through. -/
theorem dispatch_priority_rules (w h g a : ℚ) :
    ((35 : ℚ) < w →
      (dispatch w h g a).response_mode = "AMBULANCE" ∧
      (dispatch w h g a).rule_triggered = "SAFETY_FILTER" ∧
      (dispatch w h g a).confidence = 1.0) ∧
    (w ≤ (35 : ℚ) → h < g →
      (dispatch w h g a).response_mode = "BOTH" ∧
      (dispatch w h g a).rule_triggered = "EMERGENCY_OVERRIDE" ∧
      (dispatch w h g a).confidence = 0.98) ∧
    (w ≤ (35 : ℚ) → g ≤ h → (10 : ℚ) < g - a →
      (dispatch w h g a).response_mode = "BOTH" ∧
      (dispatch w h g a).rule_triggered = "EFFICIENCY_OPTIMIZATION" ∧
      (dispatch w h g a).confidence = 0.90) ∧
    (w ≤ (35 : ℚ) → g ≤ h → g - a ≤ (10 : ℚ) →
      (dispatch w h g a).response_mode = "AMBULANCE" ∧
      (dispatch w h g a).rule_triggered = "DEFAULT" ∧
      (dispatch w h g a).confidence = 0.9) := by
  refine ⟨fun h1 => ?_, fun h1 h2 => ?_, fun h1 h2 h3 => ?_, fun h1 h2 h3 => ?_⟩ <;>
      simp only [dispatch, WEATHER_RISK_THRESHOLD, EFFICIENCY_TIME_DELTA] <;>
      split_ifs <;>
    first
      | exact ⟨rfl, rfl, rfl⟩
      | (exfalso; norm_num at *; linarith)

unseal Rat.mul Rat.inv Rat.add Rat.sub Rat.ofScientific in
/-- C1 witness: one concrete input per rule, including both boundary
inputs (weather exactly 35.0, delta exactly 10.0). -/
theorem dispatch_priority_rules_witness :
    ((dispatch 88 4 29.8 3.6).response_mode = "AMBULANCE" ∧
      (dispatch 88 4 29.8 3.6).rule_triggered = "SAFETY_FILTER") ∧
    ((dispatch 35 4 29.8 3.6).response_mode = "BOTH" ∧
      (dispatch 35 4 29.8 3.6).rule_triggered = "EMERGENCY_OVERRIDE") ∧
    ((dispatch 35 30 20 5).response_mode = "BOTH" ∧
      (dispatch 35 30 20 5).rule_triggered = "EFFICIENCY_OPTIMIZATION") ∧
    ((dispatch 2 15 13.6 3.6).response_mode = "AMBULANCE" ∧
      (dispatch 2 15 13.6 3.6).rule_triggered = "DEFAULT") :=
  ⟨⟨((dispatch_priority_rules 88 4 29.8 3.6).1 (by decide)).1,
    ((dispatch_priority_rules 88 4 29.8 3.6).1 (by decide)).2.1⟩,
   ⟨((dispatch_priority_rules 35 4 29.8 3.6).2.1 (by decide) (by decide)).1,
    ((dispatch_priority_rules 35 4 29.8 3.6).2.1 (by decide) (by decide)).2.1⟩,
   ⟨((dispatch_priority_rules 35 30 20 5).2.2.1 (by decide) (by decide) (by decide)).1,
    ((dispatch_priority_rules 35 30 20 5).2.2.1 (by decide) (by decide) (by decide)).2.1⟩,
   ⟨((dispatch_priority_rules 2 15 13.6 3.6).2.2.2 (by decide) (by decide) (by decide)).1,
    ((dispatch_priority_rules 2 15 13.6 3.6).2.2.2 (by decide) (by decide) (by decide)).2.1⟩⟩

/-! ## Claim C2: red-flag fast path and score-to-severity mapping -/

/-- C2: a red-flag symptom forces severity 3 with escalation regardless of
voice stress; without red flags the severity is the fixed mapping of the
total score (base sum plus a +1 voice bonus exactly when the base sum is
nonzero and the voice stress is present and at least 0.80), and escalation
holds exactly at severity 3.  The mapping sends 0 to 0, 1-2 to 1, 3-4 to 2,
and 5 or more to 3. -/
theorem compute_severity_spec (sym : Finset String) (v : Option ℚ) :
    ((sym ∩ RED_FLAGS).Nonempty → compute_severity sym v = (3, true)) ∧
    (sym ∩ RED_FLAGS = ∅ →
      (compute_severity sym v).1 =
        map_score_to_severity (calculate_symptom_score sym +
          if 0 < calculate_symptom_score sym ∧ voice_stress_high v then 1 else 0) ∧
      ((compute_severity sym v).2 = true ↔ (compute_severity sym v).1 = 3)) ∧
    (voice_stress_high v = true ↔ ∃ q, v = some q ∧ (0.80 : ℚ) ≤ q) ∧
    map_score_to_severity 0 = 0 ∧
    (∀ n, 1 ≤ n → n ≤ 2 → map_score_to_severity n = 1) ∧
    (∀ n, 3 ≤ n → n ≤ 4 → map_score_to_severity n = 2) ∧
    (∀ n, 5 ≤ n → map_score_to_severity n = 3) := by
  refine ⟨?_, ?_, ?_, rfl, ?_, ?_, ?_⟩
  · intro hne
    unfold compute_severity
    rw [if_pos hne]
  · intro hempty
    have hne : ¬ (sym ∩ RED_FLAGS).Nonempty := by
      rw [hempty]; exact Finset.not_nonempty_empty
    unfold compute_severity
    rw [if_neg hne]
    refine ⟨?_, ?_⟩
    · dsimp only
      split_ifs <;> rfl
    · dsimp only
      simp [decide_eq_true_iff]
  · cases v with
    | none => simp [voice_stress_high]
    | some q => simp [voice_stress_high]
  · intro n h1 h2; unfold map_score_to_severity; split_ifs <;> omega
  · intro n h1 h2; unfold map_score_to_severity; split_ifs <;> omega
  · intro n h1; unfold map_score_to_severity; split_ifs <;> omega

unseal Rat.mul Rat.inv Rat.add Rat.sub Rat.ofScientific in
/-- C2 witness: a red-flag case under low stress, and a stress-boosted
fever case (base 2, bonus 1, severity 2). -/
theorem compute_severity_spec_witness :
    compute_severity {"unconscious"} (some 0.1) = (3, true) ∧
    (compute_severity {"fever"} (some 0.9)).1 = 2 :=
  ⟨(compute_severity_spec {"unconscious"} (some 0.1)).1 (by decide),
   by
    have h := ((compute_severity_spec {"fever"} (some 0.9)).2.1 (by decide)).1
    rw [h]; decide⟩

/-! ## Claim C3: triage score and severity are monotone in the symptom set -/

lemma calculate_symptom_score_mono {S T : Finset String} (h : S ⊆ T) :
    calculate_symptom_score S ≤ calculate_symptom_score T :=
  Finset.sum_le_sum_of_subset h

lemma map_score_to_severity_mono {a b : ℕ} (h : a ≤ b) :
    map_score_to_severity a ≤ map_score_to_severity b := by
  unfold map_score_to_severity; split_ifs <;> omega

lemma map_score_to_severity_le_three (n : ℕ) : map_score_to_severity n ≤ 3 := by
  unfold map_score_to_severity; split_ifs <;> omega

lemma total_score_mono {S T : Finset String} (h : S ⊆ T) (v : Option ℚ) :
    calculate_symptom_score S +
        (if 0 < calculate_symptom_score S ∧ voice_stress_high v then 1 else 0) ≤
      calculate_symptom_score T +
        (if 0 < calculate_symptom_score T ∧ voice_stress_high v then 1 else 0) := by
  have hb := calculate_symptom_score_mono h
  split_ifs with h1 h2
  · omega
  · exact absurd ⟨lt_of_lt_of_le h1.1 hb, h1.2⟩ h2
  · omega
  · omega

lemma compute_severity_fst_le_three (sym : Finset String) (v : Option ℚ) :
    (compute_severity sym v).1 ≤ 3 := by
  unfold compute_severity
  split_ifs
  · exact le_refl 3
  · exact map_score_to_severity_le_three _

lemma compute_severity_fst_mono {S T : Finset String} (h : S ⊆ T) (v : Option ℚ) :
    (compute_severity S v).1 ≤ (compute_severity T v).1 := by
  by_cases hS : (S ∩ RED_FLAGS).Nonempty
  · have hT : (T ∩ RED_FLAGS).Nonempty :=
      hS.mono (Finset.inter_subset_inter h (Finset.Subset.refl _))
    unfold compute_severity
    rw [if_pos hS, if_pos hT]
  · unfold compute_severity
    rw [if_neg hS]
    by_cases hT : (T ∩ RED_FLAGS).Nonempty
    · rw [if_pos hT]
      dsimp only
      exact map_score_to_severity_le_three _
    · rw [if_neg hT]
      dsimp only
      apply map_score_to_severity_mono
      have hb := calculate_symptom_score_mono h
      split_ifs with h1 h2
      · omega
      · exact absurd ⟨lt_of_lt_of_le h1.1 hb, h1.2⟩ h2
      · omega
      · omega

/-- C3: adding a symptom tag to the symptom list never decreases the total
score or the severity level reported by `triage`, for any fixed free text,
duration and voice stress. -/
theorem triage_monotone (s : String) (l : List String) (ft : String)
    (dm : Option ℤ) (v : Option ℚ) :
    (triage l ft dm v).total_score ≤ (triage (s :: l) ft dm v).total_score ∧
    (triage l ft dm v).severity_level ≤ (triage (s :: l) ft dm v).severity_level := by
  have hsub : l.toFinset ⊆ (s :: l).toFinset := by
    rw [List.toFinset_cons]; exact Finset.subset_insert _ _
  have hfast2 : ¬((s :: l).toFinset = ∅ ∧ pyStrip ft = "") := by
    rintro ⟨he, -⟩
    rw [List.toFinset_cons] at he
    exact Finset.insert_ne_empty _ _ he
  unfold triage
  by_cases hfast : l.toFinset = ∅ ∧ pyStrip ft = ""
  · rw [if_pos hfast, if_neg hfast2]
    exact ⟨Nat.zero_le _, Nat.zero_le _⟩
  · rw [if_neg hfast, if_neg hfast2]
    dsimp only
    exact ⟨total_score_mono hsub v, compute_severity_fst_mono hsub v⟩

/-! ## Claim C4: empty symptoms plus blank free text give the fixed
insufficient-information result -/

/-- C4: with no symptoms and blank (empty or whitespace-only) free text,
`triage` returns severity 0, category "other_unclear", no escalation,
confidence 0.0 and the fixed non-empty follow-up question list. -/
theorem triage_insufficient_info (ft : String) (dm : Option ℤ) (v : Option ℚ)
    (hft : pyStrip ft = "") :
    triage [] ft dm v =
      { category := "other_unclear"
        severity_level := 0
        escalate_human := false
        confidence := 0.0
        followup_questions := FOLLOWUP_QUESTIONS
        symptom_score := 0
        voice_bonus := 0
        total_score := 0
        red_flag_detected := false
        duration_minutes := dm } ∧
    FOLLOWUP_QUESTIONS ≠ [] := by
  refine ⟨?_, by decide⟩
  unfold triage
  rw [if_pos ⟨rfl, hft⟩]

/-- C4 witness: whitespace-only free text with no symptoms. -/
theorem triage_insufficient_info_witness :
    triage [] "   " none none =
      { category := "other_unclear"
        severity_level := 0
        escalate_human := false
        confidence := 0.0
        followup_questions := FOLLOWUP_QUESTIONS
        symptom_score := 0
        voice_bonus := 0
        total_score := 0
        red_flag_detected := false
        duration_minutes := none } ∧
    FOLLOWUP_QUESTIONS ≠ [] :=
  triage_insufficient_info "   " none none (by decide)

/-! ## Claim C5: exact normalized match returns confidence 1.0, method
"exact".

The claim as stated fails when the combined query text is blank: the
source returns early with `None` before stage 1 can run, even if some
catalog entry has a blank normalized name equal to the normalized blank
query.  The amended statement requires a non-blank query. -/

/-- A catalog entry whose normalized case name is blank; its raw name "!!"
normalizes to the empty string, which triggers the boundary case below. -/
def blankNormCase : CatalogCase :=
  { case_name := "!!"
    case_name_normalized := ""
    description := ""
    category := ""
    severity := ""
    severity_level := 0
    harm_threshold_min := 0
    harm_threshold_max := 0
    harm_threshold_raw := ""
    intervention := ""
    equipment := ""
    ctas := 0 }

/-- C5 counterexample to the claim as stated: the catalog entry with blank
normalized name equals the normalized blank query, the catalog is
non-empty, and yet `categorize` returns `none` (the source returns before
its exact-match stage when the query text is blank). -/
theorem categorize_exact_counterexample :
    ([blankNormCase] ≠ ([] : List CatalogCase)) ∧
    (∃ c ∈ [blankNormCase],
      c.case_name_normalized = normalize_case_name (categorize_query "" [])) ∧
    categorize "" [] [blankNormCase] = none := by
  exact ⟨by decide, ⟨blankNormCase, by decide, by decide⟩, by decide⟩

/-- C5 (amended): when the combined query text is non-blank and some
catalog entry's normalized case name equals the normalized query,
`categorize` returns the first such entry, with confidence exactly 1.0 and
match method "exact". -/
theorem categorize_exact_match (case_description : String) (symptoms : List String)
    (catalog : List CatalogCase)
    (hq : categorize_query case_description symptoms ≠ "")
    (hex : ∃ c ∈ catalog,
      c.case_name_normalized = normalize_case_name (categorize_query case_description symptoms)) :
    ∃ c ∈ catalog,
      c.case_name_normalized = normalize_case_name (categorize_query case_description symptoms) ∧
      categorize case_description symptoms catalog =
        some (_create_result case_description c 1.0 "exact"
          [normalize_case_name (categorize_query case_description symptoms)] []) ∧
      (_create_result case_description c 1.0 "exact"
        [normalize_case_name (categorize_query case_description symptoms)] []).confidence = 1.0 ∧
      (_create_result case_description c 1.0 "exact"
        [normalize_case_name (categorize_query case_description symptoms)] []).match_method =
        "exact" := by
  obtain ⟨c, hc, hnorm⟩ := hex
  have hcat : catalog ≠ [] := by rintro rfl; exact absurd hc (List.not_mem_nil c)
  have hfind : (catalog.find? fun d =>
      d.case_name_normalized ==
        normalize_case_name (categorize_query case_description symptoms)).isSome = true := by
    rw [List.find?_isSome]
    exact ⟨c, hc, by rw [hnorm]; exact beq_self_eq_true _⟩
  obtain ⟨c₀, hc₀⟩ := Option.isSome_iff_exists.mp hfind
  have hbeq : (c₀.case_name_normalized ==
      normalize_case_name (categorize_query case_description symptoms)) = true :=
    @List.find?_some _
      (fun d => d.case_name_normalized ==
        normalize_case_name (categorize_query case_description symptoms)) c₀ catalog hc₀
  refine ⟨c₀, List.mem_of_find?_eq_some hc₀, eq_of_beq hbeq, ?_, ?_, rfl⟩
  · unfold categorize
    rw [if_neg hcat, if_neg hq]
    dsimp only
    rw [hc₀]
  · show roundTo 2 1.0 = 1.0
    norm_num [roundTo, pyRoundInt]

/-- A concrete catalog entry used to exercise the exact-match stage. -/
def cardiacArrestCase : CatalogCase :=
  { case_name := "Cardiac Arrest"
    case_name_normalized := "cardiac arrest"
    description := "Sudden loss of heart function"
    category := "Cardiac"
    severity := "Critical"
    severity_level := 3
    harm_threshold_min := 4
    harm_threshold_max := 6
    harm_threshold_raw := "4-6 m"
    intervention := "CPR"
    equipment := "AED"
    ctas := 1 }

/-- C5 witness: "Cardiac Arrest!" normalizes to "cardiac arrest" and the
exact-match stage fires with confidence 1.0. -/
theorem categorize_exact_match_witness :
    ∃ c ∈ [cardiacArrestCase],
      c.case_name_normalized = normalize_case_name (categorize_query "Cardiac Arrest!" []) ∧
      categorize "Cardiac Arrest!" [] [cardiacArrestCase] =
        some (_create_result "Cardiac Arrest!" c 1.0 "exact"
          [normalize_case_name (categorize_query "Cardiac Arrest!" [])] []) ∧
      (_create_result "Cardiac Arrest!" c 1.0 "exact"
        [normalize_case_name (categorize_query "Cardiac Arrest!" [])] []).confidence = 1.0 ∧
      (_create_result "Cardiac Arrest!" c 1.0 "exact"
        [normalize_case_name (categorize_query "Cardiac Arrest!" [])] []).match_method = "exact" :=
  categorize_exact_match "Cardiac Arrest!" [] [cardiacArrestCase] (by decide) (by decide)

lemma pickBest_eq_or_mem (f : α → ℚ) (x : α) (l : List α) :
    pickBest f x l = x ∨ pickBest f x l ∈ l := by
  induction l generalizing x with
  | nil => exact Or.inl rfl
  | cons y ys ih =>
    have hrw : pickBest f x (y :: ys) = pickBest f (if f x < f y then y else x) ys := rfl
    rw [hrw]
    rcases ih (if f x < f y then y else x) with h | h
    · rw [h]
      split_ifs with hc
      · exact Or.inr (List.mem_cons_self _ _)
      · exact Or.inl rfl
    · exact Or.inr (List.mem_cons_of_mem _ h)

lemma le_pickBest (f : α → ℚ) (x : α) (l : List α) :
    f x ≤ f (pickBest f x l) ∧ ∀ y ∈ l, f y ≤ f (pickBest f x l) := by
  induction l generalizing x with
  | nil => exact ⟨le_refl _, by simp⟩
  | cons y ys ih =>
    have hrw : pickBest f x (y :: ys) = pickBest f (if f x < f y then y else x) ys := rfl
    rw [hrw]
    obtain ⟨h1, h2⟩ := ih (if f x < f y then y else x)
    refine ⟨le_trans ?_ h1, ?_⟩
    · split_ifs with hc
      · exact le_of_lt hc
      · exact le_refl _
    · intro z hz
      rcases List.mem_cons.mp hz with rfl | hz2
      · refine le_trans ?_ h1
        split_ifs with hc
        · exact le_refl _
        · exact le_of_not_lt hc
      · exact h2 z hz2

lemma find_best_match_roster (sq : ℚ → ℚ) (locOf : ℤ → ℚ × ℚ) (db : List Medic)
    (dec : DecisionOutput) (tri : TriageSummary)
    (ploc : Option (ℚ × ℚ)) (seed : Option ℤ) :
    (find_best_match sq locOf db dec tri ploc seed).2 = db := by
  unfold find_best_match
  dsimp only
  split
  · rfl
  · split <;> rfl

lemma find_best_match_success (sq : ℚ → ℚ) (locOf : ℤ → ℚ × ℚ) (db : List Medic)
    (dec : DecisionOutput) (tri : TriageSummary)
    (ploc : Option (ℚ × ℚ)) (seed : Option ℤ)
    (hmode : dec.response_mode ≠ "ground_only")
    (m : Medic) (hm : m ∈ db) (hs : m.status = "available") :
    ∃ am sc,
      (find_best_match sq locOf db dec tri ploc seed).1 =
        MatchOutcome.success am sc (ploc.getD (locOf (seed.getD 1))) "success" ∧
      (_calculate_match_score sq m tri.category (ploc.getD (locOf (seed.getD 1)))
        tri.severity_level
        (if dec.response_mode ∈ ["aerial_only", "combined"] then "aerial"
         else "ground")).composite_score ≤ sc ∧
      ∃ mb ∈ db, mb.status = "available" ∧ am.id = mb.id ∧
        sc = (_calculate_match_score sq mb tri.category (ploc.getD (locOf (seed.getD 1)))
          tri.severity_level
          (if dec.response_mode ∈ ["aerial_only", "combined"] then "aerial"
           else "ground")).composite_score := by
  have hmem : m ∈ db.filter fun m => m.status = "available" :=
    List.mem_filter.mpr ⟨hm, by simp [hs]⟩
  unfold find_best_match
  rw [if_neg hmode]
  dsimp only
  cases havail : db.filter (fun m => decide (m.status = "available")) with
  | nil => rw [havail] at hmem; exact absurd hmem (List.not_mem_nil m)
  | cons m₀ rest =>
    rw [havail] at hmem
    dsimp only
    refine ⟨_, _, rfl, ?_, ?_⟩
    · set p := ploc.getD (locOf (seed.getD 1)) with hp
      set mode := if dec.response_mode ∈ ["aerial_only", "combined"] then "aerial" else "ground" with hmd
      set score := fun m => (m, _calculate_match_score sq m tri.category p tri.severity_level mode) with hsc
      have hle := le_pickBest (fun q => q.2.composite_score) (score m₀) (rest.map score)
      rcases List.mem_cons.mp hmem with rfl | hm2
      · exact hle.1
      · exact hle.2 (score m) (List.mem_map_of_mem score hm2)
    · set p := ploc.getD (locOf (seed.getD 1)) with hp
      set mode := if dec.response_mode ∈ ["aerial_only", "combined"] then "aerial" else "ground" with hmd
      set score := fun m => (m, _calculate_match_score sq m tri.category p tri.severity_level mode) with hsc
      have hbm := pickBest_eq_or_mem (fun q => q.2.composite_score) (score m₀) (rest.map score)
      have : ∃ mb, mb ∈ m₀ :: rest ∧
          pickBest (fun q => q.2.composite_score) (score m₀) (rest.map score) = score mb := by
        rcases hbm with h | h
        · exact ⟨m₀, List.mem_cons_self _ _, h⟩
        · obtain ⟨mb, hmb, hmbe⟩ := List.mem_map.mp h
          exact ⟨mb, List.mem_cons_of_mem _ hmb, hmbe.symm⟩
      obtain ⟨mb, hmb, hmbe⟩ := this
      have hmbf : mb ∈ db.filter fun m => m.status = "available" := by rw [havail]; exact hmb
      have hmbdb := (List.mem_filter.mp hmbf).1
      have hmbs : mb.status = "available" := by
        have := (List.mem_filter.mp hmbf).2
        simpa using this
      exact ⟨mb, hmbdb, hmbs, by rw [hmbe], by rw [hmbe]⟩

/-! ## Claim C6: composite match score and best-candidate selection.

The claim as stated equates the composite score with the exact weighted
sum; the source rounds the composite to 3 decimals (and the distance it
feeds into the distance component to 2 decimals), so the equality fails
whenever the exact sum needs more than 3 decimal digits.  The amended
statement carries the roundings; the selection and table parts of the
claim hold as stated. -/

/-- C6 (amended): the composite score is the weighted sum
0.40·distance + 0.30·specialty + 0.15·workload + 0.10·rating + 0.05·cert
rounded to 3 decimals, where the distance component uses the planar
degree-delta distance (sqrt, times 111 km/degree, rounded to 2 decimals,
not haversine); the certification table is paramedic 0.7, emt_advanced
0.85, critical_care 1.0; and `find_best_match` returns an available medic
whose composite score is maximal over all available medics. -/
theorem match_score_weights_and_argmax :
    (∀ (sq : ℚ → ℚ) (m : Medic) (cat : String) (p : ℚ × ℚ) (sev : ℤ) (mode : String),
      (_calculate_match_score sq m cat p sev mode).composite_score =
        roundTo 3 (max 0 (1 - _calculate_distance sq m.gps_location p / 20) * 0.40 +
          _calculate_specialty_match m.specialty cat * 0.30 +
          (1 - (m.current_load : ℚ) / 100) * 0.15 +
          m.rating / 5.0 * 0.10 +
          cert_score_of m.certification_level * 0.05)) ∧
    (∀ (sq : ℚ → ℚ) (loc1 loc2 : ℚ × ℚ),
      _calculate_distance sq loc1 loc2 =
        roundTo 2 (sq (|loc2.1 - loc1.1| ^ 2 + |loc2.2 - loc1.2| ^ 2) * 111)) ∧
    (cert_score_of .paramedic = 0.7 ∧ cert_score_of .emt_advanced = 0.85 ∧
      cert_score_of .critical_care = 1.0) ∧
    (∀ (sq : ℚ → ℚ) (locOf : ℤ → ℚ × ℚ) (db : List Medic) (dec : DecisionOutput)
        (tri : TriageSummary) (ploc : Option (ℚ × ℚ)) (seed : Option ℤ) (m : Medic),
      dec.response_mode ≠ "ground_only" → m ∈ db → m.status = "available" →
      ∃ am sc,
        (find_best_match sq locOf db dec tri ploc seed).1 =
          MatchOutcome.success am sc (ploc.getD (locOf (seed.getD 1))) "success" ∧
        (_calculate_match_score sq m tri.category (ploc.getD (locOf (seed.getD 1)))
          tri.severity_level
          (if dec.response_mode ∈ ["aerial_only", "combined"] then "aerial"
           else "ground")).composite_score ≤ sc ∧
        ∃ mb ∈ db, mb.status = "available" ∧ am.id = mb.id ∧
          sc = (_calculate_match_score sq mb tri.category (ploc.getD (locOf (seed.getD 1)))
            tri.severity_level
            (if dec.response_mode ∈ ["aerial_only", "combined"] then "aerial"
             else "ground")).composite_score) :=
  ⟨fun _ _ _ _ _ _ => rfl, fun _ _ _ => rfl, ⟨rfl, rfl, rfl⟩,
   fun sq locOf db dec tri ploc seed m hmode hm hs =>
    find_best_match_success sq locOf db dec tri ploc seed hmode m hm hs⟩

/-- A medic whose exact weighted sum is 0.7415, which needs four decimal
digits and is therefore changed by the source's 3-decimal rounding. -/
def roundingMedic : Medic :=
  { id := "MED-R"
    name := "R"
    specialty := "cardiac"
    certification_level := .paramedic
    gps_location := (24, 46)
    status := "available"
    current_load := 33
    missions_completed := 10
    rating := 4.3
    languages := ["en"] }

unseal Rat.mul Rat.inv Rat.add Rat.sub Rat.ofScientific in
/-- C6 counterexample to the claim as stated: at distance 0, specialty
score 0.4, load 33, rating 4.3 and paramedic certification the exact
weighted sum is 0.7415, but the source reports the composite rounded to 3
decimals (0.742), so the claimed exact equality fails. -/
theorem match_score_formula_counterexample :
    (_calculate_match_score (fun _ => 0) roundingMedic "other_unclear" (24, 46) 2
        "aerial").composite_score ≠
      max 0 (1 - ((fun _ : ℚ => (0 : ℚ)) ((|(24 : ℚ) - 24|) ^ 2 + (|(46 : ℚ) - 46|) ^ 2) * 111) / 20) * 0.40 +
        _calculate_specialty_match "cardiac" "other_unclear" * 0.30 +
        (1 - (33 : ℚ) / 100) * 0.15 +
        (4.3 : ℚ) / 5.0 * 0.10 +
        cert_score_of .paramedic * 0.05 := by
  decide

/-- An available medic used by concrete matcher witnesses. -/
def witnessMedicA : Medic :=
  { id := "MED-1000"
    name := "A"
    specialty := "cardiac"
    certification_level := .critical_care
    gps_location := (24.7, 46.7)
    status := "available"
    current_load := 20
    missions_completed := 50
    rating := 4.8
    languages := ["ar", "en"] }

/-- A busy (on-mission) medic used by concrete matcher witnesses. -/
def witnessMedicB : Medic :=
  { id := "MED-1001"
    name := "B"
    specialty := "general"
    certification_level := .paramedic
    gps_location := (24.8, 46.6)
    status := "on_mission"
    current_load := 70
    missions_completed := 80
    rating := 4.4
    languages := ["ar"] }

unseal Rat.mul Rat.inv Rat.add Rat.sub Rat.ofScientific in
/-- C6 witness: on a two-medic roster the matcher returns a success
outcome whose score dominates the available medic's score. -/
theorem match_score_weights_and_argmax_witness :
    ∃ am sc,
      (find_best_match (fun _ => 0) (fun _ => (0, 0)) [witnessMedicA, witnessMedicB]
          ⟨"combined"⟩ ⟨3, "cardiac"⟩ (some (24.7, 46.7)) none).1 =
        MatchOutcome.success am sc
          ((some ((24.7 : ℚ), (46.7 : ℚ))).getD ((fun _ : ℤ => ((0 : ℚ), (0 : ℚ))) ((none : Option ℤ).getD 1)))
          "success" ∧
      (_calculate_match_score (fun _ => 0) witnessMedicA "cardiac"
        ((some ((24.7 : ℚ), (46.7 : ℚ))).getD ((fun _ : ℤ => ((0 : ℚ), (0 : ℚ))) ((none : Option ℤ).getD 1)))
        3 (if ("combined" : String) ∈ ["aerial_only", "combined"] then "aerial"
           else "ground")).composite_score ≤ sc ∧
      ∃ mb ∈ [witnessMedicA, witnessMedicB], mb.status = "available" ∧ am.id = mb.id ∧
        sc = (_calculate_match_score (fun _ => 0) mb "cardiac"
          ((some ((24.7 : ℚ), (46.7 : ℚ))).getD ((fun _ : ℤ => ((0 : ℚ), (0 : ℚ))) ((none : Option ℤ).getD 1)))
          3 (if ("combined" : String) ∈ ["aerial_only", "combined"] then "aerial"
             else "ground")).composite_score :=
  match_score_weights_and_argmax.2.2.2 (fun _ => 0) (fun _ => (0, 0))
    [witnessMedicA, witnessMedicB] ⟨"combined"⟩ ⟨3, "cardiac"⟩ (some (24.7, 46.7)) none
    witnessMedicA (by decide) (by decide) (by decide)

/-! ## Claim C7: determinism and absence of roster mutation -/

/-- C7: `assign_medic` leaves the roster unchanged, and a second call on
the roster state left by the first call, with the same decision output,
triage output, patient location and seed, returns the identical outcome
(hence the identical assigned medic id and composite score).  The
embedding is pure, so determinism for fixed `sq` (the float square root)
and `locOf` (the seeded location generator) reduces to the roster being
threaded through unchanged. -/
theorem assign_medic_deterministic (sq : ℚ → ℚ) (locOf : ℤ → ℚ × ℚ) (db : List Medic)
    (decision_output : DecisionOutput) (triage_output : TriageSummary)
    (patient_location : Option (ℚ × ℚ)) (seed : Option ℤ) :
    (assign_medic sq locOf db decision_output triage_output patient_location seed).2 = db ∧
    assign_medic sq locOf
        (assign_medic sq locOf db decision_output triage_output patient_location seed).2
        decision_output triage_output patient_location seed =
      assign_medic sq locOf db decision_output triage_output patient_location seed := by
  have h := find_best_match_roster sq locOf db decision_output triage_output
    patient_location seed
  refine ⟨h, ?_⟩
  show assign_medic sq locOf
      (find_best_match sq locOf db decision_output triage_output patient_location seed).2
      decision_output triage_output patient_location seed = _
  rw [h]

/-! ## Claim C8: no-match situations return explicit null results -/

/-- C8: `categorize` returns `none` when no entry matches exactly and
every stage-2 score is below 0.1; `find_best_match` (past the ground-only
gate) returns the no-available error outcome, with its reason string and
"error" status, when no medic is available; and with response mode
"ground_only" it returns the null-medic outcome, with a reason string and
no error status.  None of these paths raises. -/
theorem no_match_null_results :
    (∀ (case_description : String) (symptoms : List String) (catalog : List CatalogCase),
      (∀ c ∈ catalog, c.case_name_normalized ≠
        normalize_case_name (categorize_query case_description symptoms)) →
      (∀ c ∈ catalog,
        stage2_score (normalize_case_name (categorize_query case_description symptoms))
          (_tokenize (categorize_query case_description symptoms)) c < 0.1) →
      categorize case_description symptoms catalog = none) ∧
    (∀ (sq : ℚ → ℚ) (locOf : ℤ → ℚ × ℚ) (db : List Medic) (dec : DecisionOutput)
        (tri : TriageSummary) (ploc : Option (ℚ × ℚ)) (seed : Option ℤ),
      dec.response_mode ≠ "ground_only" →
      (∀ m ∈ db, m.status ≠ "available") →
      (find_best_match sq locOf db dec tri ploc seed).1 =
        MatchOutcome.noAvailable "No medics currently available" "error") ∧
    (∀ (sq : ℚ → ℚ) (locOf : ℤ → ℚ × ℚ) (db : List Medic) (dec : DecisionOutput)
        (tri : TriageSummary) (ploc : Option (ℚ × ℚ)) (seed : Option ℤ),
      dec.response_mode = "ground_only" →
      (find_best_match sq locOf db dec tri ploc seed).1 =
        MatchOutcome.groundOnly "Ground ambulance only, no aerial medic needed") := by
  refine ⟨?_, ?_, ?_⟩
  · intro case_description symptoms catalog hnoexact hlow
    unfold categorize
    by_cases hcat : catalog = []
    · rw [if_pos hcat]
    · rw [if_neg hcat]
      by_cases hq : categorize_query case_description symptoms = ""
      · rw [if_pos hq]
      · rw [if_neg hq]
        dsimp only
        have hfind : (catalog.find? fun d =>
            d.case_name_normalized ==
              normalize_case_name (categorize_query case_description symptoms)) = none := by
          rw [List.find?_eq_none]
          intro c hc
          simpa using hnoexact c hc
        rw [hfind]
        dsimp only
        cases hsorted : (catalog.map fun c =>
            (c, stage2_score (normalize_case_name (categorize_query case_description symptoms))
              (_tokenize (categorize_query case_description symptoms)) c,
             ((_tokenize (categorize_query case_description symptoms)) ∩
               _tokenize (c.case_name ++ " " ++ c.description)).sort (· ≤ ·))).mergeSort
            (fun x y => decide (y.2.1 ≤ x.2.1)) with
        | nil => rfl
        | cons best rest =>
          have hbm : best ∈ (catalog.map fun c =>
              (c, stage2_score (normalize_case_name (categorize_query case_description symptoms))
                (_tokenize (categorize_query case_description symptoms)) c,
               ((_tokenize (categorize_query case_description symptoms)) ∩
                 _tokenize (c.case_name ++ " " ++ c.description)).sort (· ≤ ·))) := by
            refine (@List.mem_mergeSort _ (fun x y => decide (y.2.1 ≤ x.2.1)) best _).mp ?_
            rw [hsorted]
            exact List.mem_cons_self _ _
          obtain ⟨c, hc, hce⟩ := List.mem_map.mp hbm
          have hlt : best.2.1 < 0.1 := by
            rw [← hce]
            exact hlow c hc
          dsimp only
          rw [if_pos hlt]
  · intro sq locOf db dec tri ploc seed hmode hnone
    have hfilter : db.filter (fun m => m.status = "available") = [] := by
      rw [List.filter_eq_nil_iff]
      intro m hm
      simpa using hnone m hm
    unfold find_best_match
    rw [if_neg hmode]
    dsimp only
    rw [hfilter]
  · intro sq locOf db dec tri ploc seed hmode
    unfold find_best_match
    rw [if_pos hmode]

set_option maxRecDepth 8000 in
unseal Rat.mul Rat.inv Rat.add Rat.sub Rat.ofScientific in
/-- C8 witness: an unrelated query is rejected below the 0.1 threshold; a
roster with only an on-mission medic yields the error outcome; the
ground-only mode yields the null-medic outcome. -/
theorem no_match_null_results_witness :
    categorize "zzzz" [] [cardiacArrestCase] = none ∧
    (find_best_match (fun _ => 0) (fun _ => (0, 0)) [witnessMedicB]
        ⟨"combined"⟩ ⟨3, "cardiac"⟩ none none).1 =
      MatchOutcome.noAvailable "No medics currently available" "error" ∧
    (find_best_match (fun _ => 0) (fun _ => (0, 0)) [witnessMedicB]
        ⟨"ground_only"⟩ ⟨3, "cardiac"⟩ none none).1 =
      MatchOutcome.groundOnly "Ground ambulance only, no aerial medic needed" :=
  ⟨no_match_null_results.1 "zzzz" [] [cardiacArrestCase] (by decide) (by decide),
   no_match_null_results.2.1 (fun _ => 0) (fun _ => (0, 0)) [witnessMedicB]
     ⟨"combined"⟩ ⟨3, "cardiac"⟩ none none (by decide) (by decide),
   no_match_null_results.2.2 (fun _ => 0) (fun _ => (0, 0)) [witnessMedicB]
     ⟨"ground_only"⟩ ⟨3, "cardiac"⟩ none none rfl⟩

/-! ## Claim C10: the ground-only short circuit fires only on the exact
string "ground_only", which the dispatch engine never produces -/

/-- C10: `find_best_match` short-circuits to the no-medic outcome exactly
when the response mode is the string "ground_only"; for every other mode,
whenever some medic is available it returns an assigned medic; and no
output of `dispatch` (in particular "AMBULANCE", its ground-only label)
ever equals "ground_only". -/
theorem find_best_match_ground_only_gate :
    (∀ (sq : ℚ → ℚ) (locOf : ℤ → ℚ × ℚ) (db : List Medic) (dec : DecisionOutput)
        (tri : TriageSummary) (ploc : Option (ℚ × ℚ)) (seed : Option ℤ),
      dec.response_mode = "ground_only" →
      (find_best_match sq locOf db dec tri ploc seed).1 =
        MatchOutcome.groundOnly "Ground ambulance only, no aerial medic needed") ∧
    (∀ (sq : ℚ → ℚ) (locOf : ℤ → ℚ × ℚ) (db : List Medic) (dec : DecisionOutput)
        (tri : TriageSummary) (ploc : Option (ℚ × ℚ)) (seed : Option ℤ),
      dec.response_mode ≠ "ground_only" →
      (∃ m ∈ db, m.status = "available") →
      ∃ am sc p, (find_best_match sq locOf db dec tri ploc seed).1 =
        MatchOutcome.success am sc p "success") ∧
    (∀ w h g a : ℚ, (dispatch w h g a).response_mode ≠ "ground_only") := by
  refine ⟨?_, ?_, ?_⟩
  · intro sq locOf db dec tri ploc seed hmode
    unfold find_best_match
    rw [if_pos hmode]
  · rintro sq locOf db dec tri ploc seed hmode ⟨m, hm, hs⟩
    obtain ⟨am, sc, heq, -, -⟩ :=
      find_best_match_success sq locOf db dec tri ploc seed hmode m hm hs
    exact ⟨am, sc, _, heq⟩
  · intro w h g a
    unfold dispatch
    dsimp only
    split_ifs <;> decide

unseal Rat.mul Rat.inv Rat.add Rat.sub Rat.ofScientific in
/-- C10 witness: "ground_only" short-circuits; the dispatch label
"AMBULANCE" does not, and an available medic is then assigned. -/
theorem find_best_match_ground_only_gate_witness :
    ((find_best_match (fun _ => 0) (fun _ => (0, 0)) [witnessMedicA]
        ⟨"ground_only"⟩ ⟨2, "cardiac"⟩ none none).1 =
      MatchOutcome.groundOnly "Ground ambulance only, no aerial medic needed") ∧
    (∃ am sc p,
      (find_best_match (fun _ => 0) (fun _ => (0, 0)) [witnessMedicA]
          ⟨"AMBULANCE"⟩ ⟨2, "cardiac"⟩ none none).1 =
        MatchOutcome.success am sc p "success") ∧
    (dispatch 88 4 29.8 3.6).response_mode ≠ "ground_only" :=
  ⟨find_best_match_ground_only_gate.1 (fun _ => 0) (fun _ => (0, 0)) [witnessMedicA]
     ⟨"ground_only"⟩ ⟨2, "cardiac"⟩ none none rfl,
   find_best_match_ground_only_gate.2.1 (fun _ => 0) (fun _ => (0, 0)) [witnessMedicA]
     ⟨"AMBULANCE"⟩ ⟨2, "cardiac"⟩ none none (by decide)
     ⟨witnessMedicA, List.mem_cons_self _ _, rfl⟩,
   find_best_match_ground_only_gate.2.2 88 4 29.8 3.6⟩

/-! ## Claim C9: nearest landing zone.

The claim as stated quantifies over every non-empty zone list and asserts
minimality over every zone in the list.  The source, however, skips zones
that fail coordinate validation (out-of-range latitude/longitude or the
(0,0) placeholder), and returns `None` when no zone passes — even for a
non-empty list.  The amended statement is relative to the valid zones.
The haversine distance and the bearing are transcendental; they enter as
the parameters `dist` and `bear`, and the theorems hold for arbitrary
parameter values. -/

lemma nearestLoop_cons (dist bear : ℚ → ℚ → ℚ → ℚ → ℚ) (plat plon : ℚ)
    (z : Zone) (zs : List Zone) (acc : Option (LandingZoneResult × ℚ)) :
    nearestLoop dist bear plat plon (z :: zs) acc =
      nearestLoop dist bear plat plon zs
        (if ¬ _validate_coordinates z.latitude z.longitude then acc
         else
           match acc with
           | none => some (mkZoneResult bear plat plon z
               (dist plat plon z.latitude z.longitude), dist plat plon z.latitude z.longitude)
           | some (r, min_distance) =>
               if dist plat plon z.latitude z.longitude < min_distance then
                 some (mkZoneResult bear plat plon z
                   (dist plat plon z.latitude z.longitude),
                   dist plat plon z.latitude z.longitude)
               else some (r, min_distance)) := rfl

lemma nearestSpec_cons_valid (dist : ℚ → ℚ → ℚ → ℚ → ℚ) (plat plon : ℚ)
    (z : Zone) (zs : List Zone)
    (hv : _validate_coordinates z.latitude z.longitude) :
    nearestSpec dist plat plon (z :: zs) =
      match nearestSpec dist plat plon zs with
      | none => some z
      | some w =>
          if dist plat plon z.latitude z.longitude ≤
              dist plat plon w.latitude w.longitude then some z
          else some w := by
  simp only [nearestSpec, hv, if_true]

lemma nearestSpec_cons_invalid (dist : ℚ → ℚ → ℚ → ℚ → ℚ) (plat plon : ℚ)
    (z : Zone) (zs : List Zone)
    (hv : ¬ _validate_coordinates z.latitude z.longitude) :
    nearestSpec dist plat plon (z :: zs) = nearestSpec dist plat plon zs := by
  simp only [nearestSpec, hv, if_false, Bool.false_eq_true, ite_false]

lemma nearestLoop_some_eq (dist bear : ℚ → ℚ → ℚ → ℚ → ℚ) (plat plon : ℚ) :
    ∀ (zs : List Zone) (r : LandingZoneResult) (md : ℚ),
    nearestLoop dist bear plat plon zs (some (r, md)) =
      (match nearestSpec dist plat plon zs with
       | none => some (r, md)
       | some w =>
           if dist plat plon w.latitude w.longitude < md then
             some (mkZoneResult bear plat plon w
               (dist plat plon w.latitude w.longitude), dist plat plon w.latitude w.longitude)
           else some (r, md)) := by
  intro zs
  induction zs with
  | nil => intro r md; rfl
  | cons z zs ih =>
    intro r md
    rw [nearestLoop_cons]
    by_cases hv : _validate_coordinates z.latitude z.longitude
    · rw [if_neg (not_not_intro hv), nearestSpec_cons_valid dist plat plon z zs hv]
      dsimp only
      by_cases hlt : dist plat plon z.latitude z.longitude < md
      · rw [if_pos hlt, ih]
        cases hspec : nearestSpec dist plat plon zs with
        | none =>
          dsimp only
          rw [if_pos hlt]
        | some w =>
          dsimp only
          by_cases hzw : dist plat plon z.latitude z.longitude ≤
              dist plat plon w.latitude w.longitude
          · rw [if_neg (not_lt.mpr hzw), if_pos hzw]
            dsimp only
            rw [if_pos hlt]
          · rw [if_pos (not_le.mp hzw), if_neg hzw]
            dsimp only
            rw [if_pos (lt_trans (not_le.mp hzw) hlt)]
      · rw [if_neg hlt, ih]
        cases hspec : nearestSpec dist plat plon zs with
        | none =>
          dsimp only
          rw [if_neg hlt]
        | some w =>
          dsimp only
          by_cases hzw : dist plat plon z.latitude z.longitude ≤
              dist plat plon w.latitude w.longitude
          · rw [if_pos hzw]
            dsimp only
            rw [if_neg hlt, if_neg (fun hwmd => hlt (lt_of_le_of_lt hzw hwmd))]
          · rw [if_neg hzw]
    · rw [if_pos hv, nearestSpec_cons_invalid dist plat plon z zs hv, ih]

lemma nearestLoop_none_eq (dist bear : ℚ → ℚ → ℚ → ℚ → ℚ) (plat plon : ℚ) :
    ∀ zs : List Zone,
    nearestLoop dist bear plat plon zs none =
      (nearestSpec dist plat plon zs).map
        (fun z => (mkZoneResult bear plat plon z (dist plat plon z.latitude z.longitude),
          dist plat plon z.latitude z.longitude)) := by
  intro zs
  induction zs with
  | nil => rfl
  | cons z zs ih =>
    rw [nearestLoop_cons]
    by_cases hv : _validate_coordinates z.latitude z.longitude
    · rw [if_neg (not_not_intro hv), nearestSpec_cons_valid dist plat plon z zs hv]
      dsimp only
      rw [nearestLoop_some_eq]
      cases hspec : nearestSpec dist plat plon zs with
      | none => rfl
      | some w =>
        dsimp only
        by_cases hzw : dist plat plon z.latitude z.longitude ≤
            dist plat plon w.latitude w.longitude
        · rw [if_neg (not_lt.mpr hzw), if_pos hzw]
          rfl
        · rw [if_pos (not_le.mp hzw), if_neg hzw]
          rfl
    · rw [if_pos hv, nearestSpec_cons_invalid dist plat plon z zs hv, ih]

lemma nearestSpec_none_iff (dist : ℚ → ℚ → ℚ → ℚ → ℚ) (plat plon : ℚ) :
    ∀ zs : List Zone,
    nearestSpec dist plat plon zs = none ↔
      ∀ z ∈ zs, ¬ _validate_coordinates z.latitude z.longitude := by
  intro zs
  induction zs with
  | nil => simp [nearestSpec]
  | cons z zs ih =>
    by_cases hv : _validate_coordinates z.latitude z.longitude
    · rw [nearestSpec_cons_valid dist plat plon z zs hv]
      constructor
      · intro h
        exfalso
        cases hspec : nearestSpec dist plat plon zs with
        | none => rw [hspec] at h; exact Option.noConfusion h
        | some w =>
          rw [hspec] at h
          dsimp only at h
          split_ifs at h
      · intro h
        exact absurd hv (h z (List.mem_cons_self _ _))
    · rw [nearestSpec_cons_invalid dist plat plon z zs hv, ih]
      constructor
      · intro h z2 hz2
        rcases List.mem_cons.mp hz2 with rfl | hz3
        · exact hv
        · exact h z2 hz3
      · intro h z2 hz2
        exact h z2 (List.mem_cons_of_mem _ hz2)

lemma nearestSpec_some_props (dist : ℚ → ℚ → ℚ → ℚ → ℚ) (plat plon : ℚ) :
    ∀ (zs : List Zone) (w : Zone), nearestSpec dist plat plon zs = some w →
      w ∈ zs ∧ _validate_coordinates w.latitude w.longitude ∧
      ∀ z2 ∈ zs, _validate_coordinates z2.latitude z2.longitude →
        dist plat plon w.latitude w.longitude ≤ dist plat plon z2.latitude z2.longitude := by
  intro zs
  induction zs with
  | nil => intro w h; simp [nearestSpec] at h
  | cons z zs ih =>
    intro w h
    by_cases hv : _validate_coordinates z.latitude z.longitude
    · rw [nearestSpec_cons_valid dist plat plon z zs hv] at h
      cases hspec : nearestSpec dist plat plon zs with
      | none =>
        rw [hspec] at h
        dsimp only at h
        obtain rfl := (Option.some.injEq _ _).mp h
        refine ⟨List.mem_cons_self _ _, hv, ?_⟩
        intro z2 hz2 hv2
        rcases List.mem_cons.mp hz2 with rfl | hz3
        · exact le_refl _
        · exact absurd hv2 ((nearestSpec_none_iff dist plat plon zs).mp hspec z2 hz3)
      | some w₀ =>
        rw [hspec] at h
        dsimp only at h
        obtain ⟨hmem₀, hval₀, hmin₀⟩ := ih w₀ hspec
        by_cases hzw : dist plat plon z.latitude z.longitude ≤
            dist plat plon w₀.latitude w₀.longitude
        · rw [if_pos hzw] at h
          obtain rfl := (Option.some.injEq _ _).mp h
          refine ⟨List.mem_cons_self _ _, hv, ?_⟩
          intro z2 hz2 hv2
          rcases List.mem_cons.mp hz2 with rfl | hz3
          · exact le_refl _
          · exact le_trans hzw (hmin₀ z2 hz3 hv2)
        · rw [if_neg hzw] at h
          obtain rfl := (Option.some.injEq _ _).mp h
          refine ⟨List.mem_cons_of_mem _ hmem₀, hval₀, ?_⟩
          intro z2 hz2 hv2
          rcases List.mem_cons.mp hz2 with rfl | hz3
          · exact le_of_lt (not_le.mp hzw)
          · exact hmin₀ z2 hz3 hv2
    · rw [nearestSpec_cons_invalid dist plat plon z zs hv] at h
      obtain ⟨hmem₀, hval₀, hmin₀⟩ := ih w h
      refine ⟨List.mem_cons_of_mem _ hmem₀, hval₀, ?_⟩
      intro z2 hz2 hv2
      rcases List.mem_cons.mp hz2 with rfl | hz3
      · exact absurd hv2 hv
      · exact hmin₀ z2 hz3 hv2

/-- C9 (amended): `find_nearest_zone` returns exactly the zone selected by
the first-minimum rule over the zones that pass coordinate validation
(`nearestSpec`, written from the claim's words), packaged with its rounded
distance, bearing and flight time; the result is null exactly when no zone
is valid (in particular for the empty list); and a returned zone is a
valid member of the list whose distance is minimal among all valid zones,
the first minimum encountered in input order winning ties. -/
theorem find_nearest_zone_spec (dist bear : ℚ → ℚ → ℚ → ℚ → ℚ)
    (zones : List Zone) (patient_lat patient_lon : ℚ) :
    (find_nearest_zone dist bear zones patient_lat patient_lon =
      (nearestSpec dist patient_lat patient_lon zones).map
        (fun z => mkZoneResult bear patient_lat patient_lon z
          (dist patient_lat patient_lon z.latitude z.longitude))) ∧
    (nearestSpec dist patient_lat patient_lon zones = none ↔
      ∀ z ∈ zones, ¬ _validate_coordinates z.latitude z.longitude) ∧
    (∀ w, nearestSpec dist patient_lat patient_lon zones = some w →
      w ∈ zones ∧ _validate_coordinates w.latitude w.longitude ∧
      ∀ z ∈ zones, _validate_coordinates z.latitude z.longitude →
        dist patient_lat patient_lon w.latitude w.longitude ≤
          dist patient_lat patient_lon z.latitude z.longitude) := by
  refine ⟨?_, nearestSpec_none_iff dist patient_lat patient_lon zones,
    nearestSpec_some_props dist patient_lat patient_lon zones⟩
  unfold find_nearest_zone
  rw [nearestLoop_none_eq]
  cases nearestSpec dist patient_lat patient_lon zones <;> rfl

/-- A zone at the placeholder coordinates (0, 0), which the source's
coordinate validation rejects. -/
def placeholderZone : Zone :=
  { name := "Zone Zero", latitude := 0, longitude := 0, area := "20 x 20 m" }

/-- C9 counterexample to the claim as stated: for the non-empty list
holding only the placeholder zone, `find_nearest_zone` returns `none`
(shown for a concrete distance function), while the claim requires some
zone of the list to be returned. -/
theorem nearest_zone_counterexample :
    ([placeholderZone] ≠ ([] : List Zone)) ∧
    find_nearest_zone (fun _ _ _ _ => 0) (fun _ _ _ _ => 0)
      [placeholderZone] 24.7745 46.6575 = none := by
  exact ⟨by decide, by decide⟩

unseal Rat.mul Rat.inv Rat.add Rat.sub Rat.ofScientific in
/-- C9 witness: with the distance function reading off the zone latitude,
the nearer zone "B" wins over "A" and the returned record carries its
rounded distance and flight-time estimate. -/
theorem find_nearest_zone_spec_witness :
    find_nearest_zone (fun _ _ zlat _ => zlat) (fun _ _ _ _ => 0)
        [⟨"A", 2, 3, "a"⟩, ⟨"B", 1, 3, "b"⟩] 24 46 =
      some (mkZoneResult (fun _ _ _ _ => 0) 24 46 ⟨"B", 1, 3, "b"⟩ 1) ∧
    (∀ w, nearestSpec (fun _ _ zlat _ => zlat) 24 46 [⟨"A", 2, 3, "a"⟩, ⟨"B", 1, 3, "b"⟩] =
        some w → w ∈ [(⟨"A", 2, 3, "a"⟩ : Zone), ⟨"B", 1, 3, "b"⟩]) := by
  constructor
  · have h := (find_nearest_zone_spec (fun _ _ zlat _ => zlat) (fun _ _ _ _ => 0)
      [⟨"A", 2, 3, "a"⟩, ⟨"B", 1, 3, "b"⟩] 24 46).1
    rw [h]
    decide
  · intro w hw
    exact ((find_nearest_zone_spec (fun _ _ zlat _ => zlat) (fun _ _ _ _ => 0)
      [⟨"A", 2, 3, "a"⟩, ⟨"B", 1, 3, "b"⟩] 24 46).2.2 w hw).1
